import Mathlib

/-!
Shallow embedding of the fantasy-football draft assistant's recommendation,
roster-need, scoring-editor and startup-sync logic, translated from the
TypeScript sources (`PlayerTableContainer.tsx`, `ScoringModal` and the
application bootstrap), together with theorems settling the specification's
claims about that logic.

Conventions of the embedding:
* JavaScript numbers are modelled as exact rationals `ℚ`; a possibly-absent
  (`undefined`) or not-a-number value is `Option ℚ` with `none` standing for
  `undefined`/`NaN`.  JavaScript comparisons involving `undefined`/`NaN`
  (`undefined > 0`, `x >= undefined`, `undefined === 0`) are all false, which
  the `Option` matches below reproduce.
* JavaScript objects used as string- or number-keyed boolean maps
  (`valuedPositions`, `rbHandcuffTeams`, `byeWeeks`) are modelled as boolean
  valued functions; a key that was never assigned reads back `false`
  (`undefined` is falsy).
* Array `reduce`/`map`/`filter` calls become folds and maps over `List`.
-/

namespace FF

/-- Roster/player position tags, from `Position` in `lib/models/Player.ts`.
`UNK` is the source's `'?'` tag ("empty or unknown position", also used by the
player table as the hackish flag for "show ALL positions"). -/
inductive Position where
  | QB | RB | WR | TE | FLEX | SUPERFLEX | DST | K | BENCH | UNK
deriving DecidableEq, Repr

/-- The three precomputed average-draft-position columns a player row carries
(standard, half-point PPR, full-point PPR scoring). -/
inductive AdpCol where
  | std | halfPpr | ppr
deriving DecidableEq, Repr

/-- The player fields the recommendation pipeline reads: name, team, position,
bye week and the three ADP columns.  ADP columns and the bye week are optional
because the feed may omit them (`undefined` in the source). -/
structure Player where
  name : String
  team : String
  pos : Position
  bye : Option ℕ
  std : Option ℚ
  halfPpr : Option ℚ
  ppr : Option ℚ
deriving DecidableEq, Repr

/-- Reading `p[adpCol]` for the selected ADP column. -/
def adpOf (c : AdpCol) (p : Player) : Option ℚ :=
  match c with
  | .std => p.std
  | .halfPpr => p.halfPpr
  | .ppr => p.ppr

/-!
### Scoring-format column selection

Source (`PlayerTableContainer.render`):
```
const adpDiff = [0, 0.5, 1].map((ppr) => Math.abs(ppr - scoring.receptions));
const minDiff = Math.min(...adpDiff);
const minDiffIndex = adpDiff.indexOf(minDiff);
const adpCol = \x7b 0: 'std', 1: 'halfPpr', 2: 'ppr' \x7d[minDiffIndex]!;
```
`indexOf` returns the first index holding `minDiff`; the candidate diffs are
inlined (`d0`, `d1`, `d2` are `adpDiff[0..2]`).
-/

/-- JavaScript `Math.abs`, written as an executable conditional so that
concrete runs of the pipeline reduce. -/
def mathAbs (x : ℚ) : ℚ := if x < 0 then -x else x

/-- JavaScript `Math.min` of two numbers (the source's three-way
`Math.min(...adpDiff)` is the nested binary minimum). -/
def mathMin (x y : ℚ) : ℚ := if x ≤ y then x else y

theorem mathAbs_eq_abs (x : ℚ) : mathAbs x = |x| := by
  unfold mathAbs
  split_ifs with h
  · exact (abs_of_neg h).symm
  · exact (abs_of_nonneg (not_lt.mp h)).symm

theorem mathMin_eq_min (x y : ℚ) : mathMin x y = min x y := (min_def x y).symm

/-- The ADP column chosen for a configured points-per-reception value,
translated from the four lines quoted above. -/
def selectAdpCol (receptions : ℚ) : AdpCol :=
  let d0 : ℚ := mathAbs (0 - receptions)
  let d1 : ℚ := mathAbs (1/2 - receptions)
  let d2 : ℚ := mathAbs (1 - receptions)
  let minDiff := mathMin d0 (mathMin d1 d2)
  let minDiffIndex : ℕ := if d0 = minDiff then 0 else if d1 = minDiff then 1 else 2
  if minDiffIndex = 0 then .std else if minDiffIndex = 1 then .halfPpr else .ppr

/-- Written from the spec's words, as the refinement target for C4: "minimizing
`|configuredValue - candidateValue|` over the fixed candidate set \x7b0, 0.5, 1\x7d;
ties resolve to the first minimum found in that fixed order". -/
def selectAdpColSpec (receptions : ℚ) : AdpCol :=
  if |0 - receptions| ≤ |1/2 - receptions| ∧ |0 - receptions| ≤ |1 - receptions| then .std
  else if |1/2 - receptions| ≤ |1 - receptions| then .halfPpr
  else .ppr

theorem selectAdpCol_eq_spec (r : ℚ) : selectAdpCol r = selectAdpColSpec r := by
  simp only [selectAdpCol, selectAdpColSpec, mathAbs_eq_abs, mathMin_eq_min]
  set d0 : ℚ := |0 - r| with hd0
  set d1 : ℚ := |1/2 - r| with hd1
  set d2 : ℚ := |1 - r| with hd2
  rcases le_or_lt d0 d1 with h01 | h01
  · rcases le_or_lt d0 d2 with h02 | h02
    · have hmin : min d0 (min d1 d2) = d0 := min_eq_left (le_min h01 h02)
      simp [hmin, h01, h02]
    · -- d2 < d0 ≤ d1, so the minimum is d2 and neither d0 nor d1 equals it
      have h21 : d2 < d1 := lt_of_lt_of_le h02 h01
      have hmin : min d0 (min d1 d2) = d2 := by
        rw [min_eq_right h21.le, min_eq_right h02.le]
      have hne0 : ¬ d0 = d2 := ne_of_gt h02
      have hne1 : ¬ d1 = d2 := ne_of_gt h21
      have hnle : ¬ d1 ≤ d2 := not_le.mpr h21
      simp [hmin, hne0, hne1, hnle, h02, h21, not_le.mpr h02]
  · -- d1 < d0: the first candidate is not the (first) minimum
    have hnc : ¬ (d0 ≤ d1 ∧ d0 ≤ d2) := fun h => absurd h.1 (not_le.mpr h01)
    have hnle01 : ¬ d0 ≤ d1 := not_le.mpr h01
    rcases le_or_lt d1 d2 with h12 | h12
    · have hmin : min d0 (min d1 d2) = d1 := by
        rw [min_eq_left h12]
        exact min_eq_right h01.le
      have hne0 : ¬ d0 = d1 := ne_of_gt h01
      simp [hmin, hne0, hnc, h12, h01, h01.le, hnle01]
    · have h20 : d2 < d0 := lt_trans h12 h01
      have hmin : min d0 (min d1 d2) = d2 := by
        rw [min_eq_right h12.le, min_eq_right h20.le]
      have hne0 : ¬ d0 = d2 := ne_of_gt h20
      have hne1 : ¬ d1 = d2 := ne_of_gt h12
      simp [hmin, hne0, hne1, hnc, h12, h20, hnle01, not_le.mpr h12]

/-- C4: for every configured points-per-reception value `r`, the ADP column
selection agrees with the spec's rule "minimize `|r - candidate|` over
\x7b0, 0.5, 1\x7d, ties to the first minimum in the order standard, half-point,
full-point"; in particular `selectAdpCol 0.5 = halfPpr`,
`selectAdpCol 0.3 = halfPpr`, and `selectAdpCol 0.25 = std`. -/
theorem selectAdpCol_minimizes :
    (∀ r : ℚ, selectAdpCol r = selectAdpColSpec r) ∧
      selectAdpCol (1/2) = AdpCol.halfPpr ∧
      selectAdpCol (3/10) = AdpCol.halfPpr ∧
      selectAdpCol (1/4) = AdpCol.std := by
  refine ⟨selectAdpCol_eq_spec, ?_, ?_, ?_⟩ <;> norm_num [selectAdpCol, mathAbs, mathMin]

/-!
### The player-table filter and recommendation pipeline

Source: `PlayerTableContainer.render`.  JavaScript's `Array.map((x, i) => …)`
passes the element index, which `idxMap` makes explicit.
-/

/-- Indexed map, mirroring `Array.prototype.map`'s `(element, index)` callback
(the index accumulator starts at 0). -/
def idxMap {β : Type} (f : ℕ → Player → β) : ℕ → List Player → List β
  | _, [] => []
  | i, p :: rest => f i p :: idxMap f (i + 1) rest

/-- The position-filter stage: `true` at an index means that player is
filtered out.  Source:
```
positionsToShow.length === 1 && positionsToShow[0] === '?'
  ? new Array(players.length).fill(false)
  : players.map((p) => positionsToShow.indexOf(p.pos) < 0)
```
-/
def filteredByPosition (positionsToShow : List Position) (players : List Player) : List Bool :=
  if positionsToShow.length = 1 ∧ positionsToShow.getD 0 .UNK = .UNK then
    List.replicate players.length false
  else
    players.map (fun p => !(positionsToShow.contains p.pos))

/-- JavaScript `String.prototype.toLowerCase`, modelled character-wise over
the string's data (written this way, rather than with `String.map`, so that
concrete inputs reduce). -/
def toLowerStr (s : String) : String := ⟨s.data.map Char.toLower⟩

theorem toLowerStr_empty : toLowerStr "" = "" := rfl

/-- Whether the name-search stage filters a player out, from the body of the
`filteredPlayers.map((filtered, i) => …)` callback.  JavaScript's
`names[1] ? names[1].startsWith(…) : false` is falsy both for a missing and
for an empty second name part. -/
def filteredOutByName (nameFilterLower : String) (p : Player) : Bool :=
  let lowercaseName := toLowerStr p.name
  let names := lowercaseName.splitOn " "
  let firstNameMatch := (names.getD 0 "").startsWith nameFilterLower
  let lastName := names.getD 1 ""
  let lastNameMatch := if lastName = "" then false else lastName.startsWith nameFilterLower
  !(lowercaseName.startsWith nameFilterLower || firstNameMatch || lastNameMatch)

/-- Both filter stages: the position filter, then (only when the name filter
is non-empty, since an empty string is falsy) the name filter.  The `none`
branch of the index lookup is unreachable because the boolean list has the
same length as `players`. -/
def filteredPlayers (positionsToShow : List Position) (nameFilter : String)
    (players : List Player) : List Bool :=
  let base := filteredByPosition positionsToShow players
  let nameFilterLower := toLowerStr nameFilter
  if nameFilterLower = "" then base
  else
    idxMap (fun i p => (base.getD i false) || filteredOutByName nameFilterLower p) 0 players

/-- The per-player part of the draft-soon computation:
`p[adpCol] > 0 && currentPick + 8 >= p[adpCol]`, with JavaScript's
`undefined > 0` and `x >= undefined` both false. -/
def draftSoonFlag (c : AdpCol) (currentPick : ℚ) (p : Player) : Bool :=
  match adpOf c p with
  | none => false
  | some a => decide (0 < a) && decide (a ≤ currentPick + 8)

/-- Source: `players.map((p, i) => !filteredPlayers[i] && p[adpCol] > 0 &&
currentPick + 8 >= p[adpCol])`. -/
def draftSoonList (filtered : List Bool) (c : AdpCol) (currentPick : ℚ)
    (players : List Player) : List Bool :=
  idxMap (fun i p => !(filtered.getD i false) && draftSoonFlag c currentPick p) 0 players

/-- Source: the `rbHandcuffs` set,
`players.filter((p, i) => !filteredPlayers[i] && p.pos === 'RB' &&
rbHandcuffTeams[p.team])`.  The source keeps a `Set` of player objects and
later asks `rbHandcuffs.has(p)` for `p = players[i]`; since the undrafted
list holds distinct objects, that membership test at index `i` is exactly the
value of this per-index flag. -/
def rbHandcuffFlags (filtered : List Bool) (rbHandcuffTeams : String → Bool)
    (players : List Player) : List Bool :=
  idxMap (fun i p => !(filtered.getD i false) && (p.pos == Position.RB) && rbHandcuffTeams p.team) 0
    players

/-- The `players.reduce` that builds the `recommended` list, with the
`recommendedCount` counter and element index made explicit arguments (the
JavaScript callback appends at the back of the accumulator; consing here
produces the same list).  Source:
```
if (recommendedCount < 3 && valuedPositions[p.pos]) \x7b
  if (draftSoon[i] || p[adpCol] === 0) \x7b recommendedCount += 1; return [...acc, p]; \x7d
\x7d else if (i < 30 && rbHandcuffs.has(p)) \x7b
  recommendedCount += 1; return [...acc, p];
\x7d
return acc;
```
-/
def recommendedGo (valued : Position → Bool) (ds hc : List Bool) (c : AdpCol) :
    ℕ → ℕ → List Player → List Player
  | _, _, [] => []
  | i, recommendedCount, p :: rest =>
    if recommendedCount < 3 ∧ valued p.pos then
      if ds.getD i false ∨ adpOf c p = some 0 then
        p :: recommendedGo valued ds hc c (i + 1) (recommendedCount + 1) rest
      else
        recommendedGo valued ds hc c (i + 1) recommendedCount rest
    else if i < 30 ∧ hc.getD i false then
      p :: recommendedGo valued ds hc c (i + 1) (recommendedCount + 1) rest
    else
      recommendedGo valued ds hc c (i + 1) recommendedCount rest

/-- The whole recommendation computation of `render`, instantiated at the
component's default view state (`positionsToShow = ['?']`, `nameFilter = ''`,
so no player is filtered out of consideration). -/
def recommendedPlayers (players : List Player) (currentPick : ℚ) (receptions : ℚ)
    (valued : Position → Bool) (rbHandcuffTeams : String → Bool) : List Player :=
  let adpCol := selectAdpCol receptions
  let filtered := filteredPlayers [Position.UNK] "" players
  let ds := draftSoonList filtered adpCol currentPick players
  let hc := rbHandcuffFlags filtered rbHandcuffTeams players
  recommendedGo valued ds hc adpCol 0 0 players

theorem getD_replicate_false (n i : ℕ) : (List.replicate n false).getD i false = false := by
  induction n generalizing i with
  | zero => simp [List.getD]
  | succ n ih =>
    cases i with
    | zero => simp [List.replicate]
    | succ i =>
      simp only [List.replicate, List.getD_cons_succ]
      exact ih i

theorem filteredPlayers_default (players : List Player) :
    filteredPlayers [Position.UNK] "" players = List.replicate players.length false := by
  simp [filteredPlayers, filteredByPosition, toLowerStr_empty]

theorem idxMap_noFilter (c : AdpCol) (currentPick : ℚ) (fl : List Bool)
    (hfl : ∀ k, fl.getD k false = false) :
    ∀ (players : List Player) (j : ℕ),
      idxMap (fun i p => !(fl.getD i false) && draftSoonFlag c currentPick p) j players
        = players.map (draftSoonFlag c currentPick) := by
  intro players
  induction players with
  | nil => intro j; simp [idxMap]
  | cons p rest ih =>
    intro j
    simp only [idxMap, List.map_cons]
    rw [hfl j]
    simp only [Bool.not_false, Bool.true_and]
    rw [ih (j + 1)]

theorem draftSoonList_default (c : AdpCol) (currentPick : ℚ) (players : List Player) :
    draftSoonList (List.replicate players.length false) c currentPick players
      = players.map (draftSoonFlag c currentPick) :=
  idxMap_noFilter c currentPick _ (fun k => getD_replicate_false players.length k) players 0

/-- C5: a player's computed draft-soon flag (with no view filter active) is
true exactly when the ADP value in the scoring-format-appropriate column is
defined, positive, and at most 8 picks past the current pick number; and the
flag list of `render` is the element-wise application of that rule. -/
theorem draftSoon_iff :
    (∀ (c : AdpCol) (currentPick : ℚ) (p : Player),
        draftSoonFlag c currentPick p = true ↔
          ∃ a : ℚ, adpOf c p = some a ∧ 0 < a ∧ a ≤ currentPick + 8) ∧
      ∀ (players : List Player) (c : AdpCol) (currentPick : ℚ),
        draftSoonList (filteredPlayers [Position.UNK] "" players) c currentPick players
          = players.map (draftSoonFlag c currentPick) := by
  constructor
  · intro c currentPick p
    unfold draftSoonFlag
    rcases h : adpOf c p with _ | a
    · simp [h]
    · simp [h]
  · intro players c currentPick
    rw [filteredPlayers_default]
    exact draftSoonList_default c currentPick players

/-- Invariant of the `recommended` fold: starting from counter value `cnt` at
element index `i`, the output holds at most `3 - min cnt 3` further
value-based entries plus one entry per index `j < 30` in the remaining range
whose handcuff flag is set. -/
theorem recommendedGo_length_le (valued : Position → Bool) (ds hc : List Bool) (c : AdpCol) :
    ∀ (l : List Player) (i cnt : ℕ),
      (recommendedGo valued ds hc c i cnt l).length ≤
        (3 - min cnt 3) +
          (List.range' i l.length).countP (fun j => decide (j < 30) && hc.getD j false) := by
  intro l
  induction l with
  | nil => intro i cnt; simp [recommendedGo]
  | cons p rest ih =>
    intro i cnt
    have hrange : List.range' i (p :: rest).length
        = i :: List.range' (i + 1) rest.length := by
      simp [List.range']
    rw [hrange, List.countP_cons]
    by_cases h1 : cnt < 3 ∧ valued p.pos
    · by_cases h2 : ds.getD i false = true ∨ adpOf c p = some 0
      · have hstep : recommendedGo valued ds hc c i cnt (p :: rest)
            = p :: recommendedGo valued ds hc c (i + 1) (cnt + 1) rest := by
          simp only [recommendedGo]
          rw [if_pos h1, if_pos h2]
        rw [hstep]
        have hrec := ih (i + 1) (cnt + 1)
        simp only [List.length_cons]
        have hcnt : cnt < 3 := h1.1
        have hif : (if (decide (i < 30) && hc.getD i false) = true then 1 else 0) ≤ 1 := by
          split <;> omega
        omega
      · have hstep : recommendedGo valued ds hc c i cnt (p :: rest)
            = recommendedGo valued ds hc c (i + 1) cnt rest := by
          simp only [recommendedGo]
          rw [if_pos h1, if_neg h2]
        rw [hstep]
        have hrec := ih (i + 1) cnt
        omega
    · by_cases h3 : i < 30 ∧ hc.getD i false = true
      · have hstep : recommendedGo valued ds hc c i cnt (p :: rest)
            = p :: recommendedGo valued ds hc c (i + 1) (cnt + 1) rest := by
          simp only [recommendedGo]
          rw [if_neg h1, if_pos h3]
        rw [hstep]
        have hpred : (decide (i < 30) && hc.getD i false) = true := by
          rw [h3.2]
          simp [h3.1]
        rw [if_pos hpred]
        have hrec := ih (i + 1) (cnt + 1)
        simp only [List.length_cons]
        omega
      · have hstep : recommendedGo valued ds hc c i cnt (p :: rest)
            = recommendedGo valued ds hc c (i + 1) cnt rest := by
          simp only [recommendedGo]
          rw [if_neg h1, if_neg h3]
        rw [hstep]
        have hrec := ih (i + 1) cnt
        omega

/-- C2: for every input to the recommendation filter, the recommended list
holds at most 3 value-based entries plus one entry per qualifying handcuff
index below 30, so its size is bounded by 3 plus the number of indices
`j < 30` whose handcuff flag is set. -/
theorem recommended_size_bound (players : List Player) (currentPick receptions : ℚ)
    (valued : Position → Bool) (rbHandcuffTeams : String → Bool) :
    (recommendedPlayers players currentPick receptions valued rbHandcuffTeams).length ≤
      3 + (List.range players.length).countP
            (fun j => decide (j < 30) &&
              (rbHandcuffFlags (filteredPlayers [Position.UNK] "" players) rbHandcuffTeams
                  players).getD j false) := by
  unfold recommendedPlayers
  rw [List.range_eq_range']
  simpa using
    recommendedGo_length_le valued
      (draftSoonList (filteredPlayers [Position.UNK] "" players) (selectAdpCol receptions)
        currentPick players)
      (rbHandcuffFlags (filteredPlayers [Position.UNK] "" players) rbHandcuffTeams players)
      (selectAdpCol receptions) players 0 0

/-!
### Concrete inputs for settling C1 and C3

Claims C1 and C3 fail on the code as written: JavaScript's strict equality
`p[adpCol] === 0` is false for an `undefined` ADP, and the handcuff branch of
the reduce sits in an `else` of the value branch, so it is never reached when
the value-branch guard holds.
-/

/-- A player record holding only the fields the recommendation pipeline
reads; all three ADP columns get the same value. -/
def mkPlayer (name team : String) (pos : Position) (adp : Option ℚ) : Player :=
  { name := name, team := team, pos := pos, bye := none, std := adp, halfPpr := adp, ppr := adp }

/-- A player with a bye week and no ADP data. -/
def mkPlayerBye (name team : String) (pos : Position) (bye : ℕ) : Player :=
  { name := name, team := team, pos := pos, bye := some bye, std := none, halfPpr := none,
    ppr := none }

theorem selectAdpCol_zero : selectAdpCol 0 = AdpCol.std := by
  norm_num [selectAdpCol, mathAbs, mathMin]

/-- C1 counterexample: an undrafted list of three players, all at the valued
position RB, all with ADP undefined in every column, current pick 1 (and
standard scoring, receptions = 0): the claim says all three are recommended,
but the strict `=== 0` test fails on an undefined ADP and the computed
recommendation list is empty. -/
theorem recommended_undefined_adp_counterexample :
    recommendedPlayers
        [mkPlayer "A" "T1" Position.RB none, mkPlayer "B" "T2" Position.RB none,
          mkPlayer "C" "T3" Position.RB none]
        1 0 (fun q => q == Position.RB) (fun _ => false) = [] ∧
      mkPlayer "A" "T1" Position.RB none ∉
        recommendedPlayers
          [mkPlayer "A" "T1" Position.RB none, mkPlayer "B" "T2" Position.RB none,
            mkPlayer "C" "T3" Position.RB none]
          1 0 (fun q => q == Position.RB) (fun _ => false) := by
  have h : recommendedPlayers
      [mkPlayer "A" "T1" Position.RB none, mkPlayer "B" "T2" Position.RB none,
        mkPlayer "C" "T3" Position.RB none]
      1 0 (fun q => q == Position.RB) (fun _ => false) = [] := by
    unfold recommendedPlayers
    rw [selectAdpCol_zero, filteredPlayers_default]
    simp [draftSoonList, rbHandcuffFlags, idxMap, draftSoonFlag, adpOf, mkPlayer,
      getD_replicate_false, recommendedGo]
  exact ⟨h, by rw [h]; simp⟩

/-- C1 amended: a player whose position is in the valued set and whose ADP in
the selected column is defined and equal to zero is added (and the counter
incremented) whenever the running counter is below 3 — an undefined ADP fails
the strict `=== 0` gate — and the end-to-end run of three valued-position RBs
with ADP 0 in every column at current pick 1 recommends all three. -/
theorem recommended_zero_adp :
    (∀ (valued : Position → Bool) (ds hc : List Bool) (c : AdpCol) (i cnt : ℕ)
        (p : Player) (rest : List Player),
        cnt < 3 → valued p.pos = true → adpOf c p = some 0 →
          recommendedGo valued ds hc c i cnt (p :: rest)
            = p :: recommendedGo valued ds hc c (i + 1) (cnt + 1) rest) ∧
      recommendedPlayers
          [mkPlayer "A" "T1" Position.RB (some 0), mkPlayer "B" "T2" Position.RB (some 0),
            mkPlayer "C" "T3" Position.RB (some 0)]
          1 0 (fun q => q == Position.RB) (fun _ => false)
        = [mkPlayer "A" "T1" Position.RB (some 0), mkPlayer "B" "T2" Position.RB (some 0),
            mkPlayer "C" "T3" Position.RB (some 0)] := by
  constructor
  · intro valued ds hc c i cnt p rest hcnt hval hadp
    simp only [recommendedGo]
    rw [if_pos ⟨hcnt, hval⟩, if_pos (Or.inr hadp)]
  · unfold recommendedPlayers
    rw [selectAdpCol_zero, filteredPlayers_default]
    simp [draftSoonList, rbHandcuffFlags, idxMap, draftSoonFlag, adpOf, mkPlayer,
      getD_replicate_false, recommendedGo]

/-- Closed witness for `recommended_zero_adp`: its step rule applied to a
concrete one-element list. -/
theorem recommended_zero_adp_witness :
    recommendedGo (fun q => q == Position.RB) [] [] AdpCol.std 0 0
        [mkPlayer "A" "T1" Position.RB (some 0)]
      = mkPlayer "A" "T1" Position.RB (some 0) ::
          recommendedGo (fun q => q == Position.RB) [] [] AdpCol.std 1 1 [] :=
  recommended_zero_adp.1 (fun q => q == Position.RB) [] [] AdpCol.std 0 0
    (mkPlayer "A" "T1" Position.RB (some 0)) [] (by norm_num) (by rfl) (by rfl)

/-- C3 counterexample: a single undrafted RB on team DAL with DAL in the
handcuff map and index 0 < 30, whose position is also in the valued set while
the counter is 0 < 3, but whose ADP (100, far beyond pick 1 + 8 and nonzero)
fails the draft-soon/zero-ADP gate.  The claim says the handcuff rule adds
the player independently of that gate; the code takes the value branch, the
gate fails, the `else if` handcuff branch is never examined, and the
recommendation list is empty. -/
theorem handcuff_not_independent_counterexample :
    recommendedPlayers [mkPlayer "D" "DAL" Position.RB (some 100)] 1 0
        (fun q => q == Position.RB) (fun t => t == "DAL") = [] := by
  unfold recommendedPlayers
  rw [selectAdpCol_zero, filteredPlayers_default]
  have h9 : ¬((100 : ℚ) ≤ 1 + 8) := by norm_num
  have h0 : ¬((100 : ℚ) = 0) := by norm_num
  simp [draftSoonList, rbHandcuffFlags, idxMap, draftSoonFlag, adpOf, mkPlayer,
    getD_replicate_false, recommendedGo, h9, h0]

/-- C3 amended: the handcuff branch (position RB with the team in the
handcuff map, at an index below 30) adds the player and increments the
counter only when the value-branch guard fails, i.e. when the counter has
reached 3 or the player's position is not in the valued set; when the value
guard holds but its draft-soon/zero-ADP gate fails, the player is skipped
outright, qualifying handcuff or not. -/
theorem handcuff_branch_behaviour :
    (∀ (valued : Position → Bool) (ds hc : List Bool) (c : AdpCol) (i cnt : ℕ)
        (p : Player) (rest : List Player),
        ¬(cnt < 3 ∧ valued p.pos = true) → i < 30 → hc.getD i false = true →
          recommendedGo valued ds hc c i cnt (p :: rest)
            = p :: recommendedGo valued ds hc c (i + 1) (cnt + 1) rest) ∧
      ∀ (valued : Position → Bool) (ds hc : List Bool) (c : AdpCol) (i cnt : ℕ)
        (p : Player) (rest : List Player),
        cnt < 3 → valued p.pos = true → ds.getD i false = false → adpOf c p ≠ some 0 →
          recommendedGo valued ds hc c i cnt (p :: rest)
            = recommendedGo valued ds hc c (i + 1) cnt rest := by
  constructor
  · intro valued ds hc c i cnt p rest h1 h2 h3
    simp only [recommendedGo]
    rw [if_neg h1, if_pos ⟨h2, h3⟩]
  · intro valued ds hc c i cnt p rest hcnt hval hds hadp
    simp only [recommendedGo]
    rw [if_pos ⟨hcnt, hval⟩, if_neg ?_]
    intro hgate
    rcases hgate with hgate | hgate
    · rw [hds] at hgate
      exact absurd hgate (by simp)
    · exact hadp hgate

/-- Closed witness for `handcuff_branch_behaviour`: both branches exercised on
concrete one-element lists (an unvalued-position handcuff is added; a valued
RB with handcuff flag but nonzero far ADP is skipped). -/
theorem handcuff_branch_behaviour_witness :
    recommendedGo (fun _ => false) [false] [true] AdpCol.std 0 0
        [mkPlayer "D" "DAL" Position.RB (some 100)]
      = mkPlayer "D" "DAL" Position.RB (some 100) ::
          recommendedGo (fun _ => false) [false] [true] AdpCol.std 1 1 [] ∧
      recommendedGo (fun q => q == Position.RB) [false] [true] AdpCol.std 0 0
          [mkPlayer "D" "DAL" Position.RB (some 100)]
        = recommendedGo (fun q => q == Position.RB) [false] [true] AdpCol.std 1 0 [] := by
  constructor
  · exact handcuff_branch_behaviour.1 (fun _ => false) [false] [true] AdpCol.std 0 0
      (mkPlayer "D" "DAL" Position.RB (some 100)) [] (by simp) (by norm_num) (by rfl)
  · exact handcuff_branch_behaviour.2 (fun q => q == Position.RB) [false] [true] AdpCol.std 0 0
      (mkPlayer "D" "DAL" Position.RB (some 100)) [] (by norm_num) (by rfl) (by rfl)
      (by norm_num [adpOf, mkPlayer])

/-!
### Roster state and `mapStateToProps`

Source: the `mapStateToProps` of `PlayerTableContainer.tsx`, which destructures
the tracked team's slot lists and builds `valuedPositions`, `byeWeeks` and
`rbHandcuffTeams`.  A slot list holds `Option Player` (`null` marks an empty
slot).
-/

structure Roster where
  QB : List (Option Player)
  RB : List (Option Player)
  WR : List (Option Player)
  TE : List (Option Player)
  FLEX : List (Option Player)
  SUPERFLEX : List (Option Player)
  DST : List (Option Player)
  K : List (Option Player)
  BENCH : List (Option Player)
deriving DecidableEq, Repr

/-- Source: `const notFilled = (pos) => !pos.every((p) => !!p);`. -/
def notFilled (slots : List (Option Player)) : Bool := !(slots.all (fun p => p.isSome))

/-- The keys the `valuedPositions` object can ever receive; a missing key
reads back as falsy, so each key is a `Bool` defaulting to `false`. -/
structure ValuedMap where
  qb : Bool
  rb : Bool
  wr : Bool
  te : Bool
  k : Bool
  dst : Bool
deriving DecidableEq, Repr

/-- Source: `BENCH.filter((p) => p && p.pos === '…').length`. -/
def benchCountAt (bench : List (Option Player)) (pos : Position) : ℕ :=
  (bench.filter (fun o => match o with | some q => q.pos == pos | none => false)).length

/-- The sequence of conditional assignments building `valuedPositions` in
`mapStateToProps`, in source order: primary starters, FLEX, SUPERFLEX, TE,
the all-starters-filled fallback (always RB/WR, plus QB/TE when fewer than
one backup sits on the bench), then K and DST. -/
def valuedPositionsMap (r : Roster) : ValuedMap :=
  let v : ValuedMap := ⟨false, false, false, false, false, false⟩
  let v := if notFilled r.QB then { v with qb := true } else v
  let v := if notFilled r.RB then { v with rb := true } else v
  let v := if notFilled r.WR then { v with wr := true } else v
  let v := if notFilled r.FLEX then { v with rb := true, wr := true, te := true } else v
  let v :=
    if notFilled r.SUPERFLEX then { v with qb := true, rb := true, wr := true, te := true } else v
  let v := if notFilled r.TE then { v with te := true } else v
  let v :=
    if !(v.qb || v.rb || v.wr || v.te) then
      -- `Object.keys(valuedPositions).length === 0`: only the four keys above
      -- can have been assigned (always with `true`) at this point
      let v := { v with rb := true, wr := true }
      let v := if benchCountAt r.BENCH Position.QB < 1 then { v with qb := true } else v
      let v := if benchCountAt r.BENCH Position.TE < 1 then { v with te := true } else v
      v
    else v
  let v := if notFilled r.K then { v with k := true } else v
  let v := if notFilled r.DST then { v with dst := true } else v
  v

/-- The lookup `valuedPositions[p.pos]` (a key never assigned reads falsy). -/
def valuedPositions (r : Roster) : Position → Bool := fun pos =>
  match pos with
  | .QB => (valuedPositionsMap r).qb
  | .RB => (valuedPositionsMap r).rb
  | .WR => (valuedPositionsMap r).wr
  | .TE => (valuedPositionsMap r).te
  | .K => (valuedPositionsMap r).k
  | .DST => (valuedPositionsMap r).dst
  | _ => false

/-- A roster whose slots all exist but are all empty, in the app's default
format (1 QB, 2 RB, 2 WR, 1 TE, 1 FLEX, 1 SUPERFLEX, 1 K, 1 DST, 7 bench). -/
def emptyRoster : Roster :=
  { QB := [none], RB := [none, none], WR := [none, none], TE := [none], FLEX := [none],
    SUPERFLEX := [none], DST := [none], K := [none], BENCH := List.replicate 7 none }

/-- C7: when every primary and wildcard starter slot is filled and the bench
holds no QB and no TE, the valued set is exactly \x7bQB, RB, WR, TE\x7d together
with K and/or DST exactly when those slots are unfilled; and on the empty
roster every primary position is valued (the computation is total, so there
is no error condition). -/
theorem valuedPositions_fallback :
    (∀ r : Roster,
        notFilled r.QB = false → notFilled r.RB = false → notFilled r.WR = false →
        notFilled r.TE = false → notFilled r.FLEX = false → notFilled r.SUPERFLEX = false →
        benchCountAt r.BENCH Position.QB = 0 → benchCountAt r.BENCH Position.TE = 0 →
        ∀ pos, valuedPositions r pos = true ↔
          (pos = Position.QB ∨ pos = Position.RB ∨ pos = Position.WR ∨ pos = Position.TE ∨
            (pos = Position.K ∧ notFilled r.K = true) ∨
            (pos = Position.DST ∧ notFilled r.DST = true))) ∧
      ∀ pos, (pos = Position.QB ∨ pos = Position.RB ∨ pos = Position.WR ∨ pos = Position.TE) →
        valuedPositions emptyRoster pos = true := by
  constructor
  · intro r hQB hRB hWR hTE hFLEX hSFX hbq hbt pos
    cases hK : notFilled r.K <;> cases hD : notFilled r.DST <;> cases pos <;>
      simp [valuedPositions, valuedPositionsMap, hQB, hRB, hWR, hTE, hFLEX, hSFX, hbq, hbt,
        hK, hD]
  · intro pos h
    rcases h with h | h | h | h <;> subst h <;> decide

/-- Closed witness for `valuedPositions_fallback`: a fully-staffed roster with
an empty bench values RB (and, being filled at K, does not value K). -/
theorem valuedPositions_fallback_witness :
    valuedPositions
        { QB := [some (mkPlayer "q" "T1" Position.QB none)],
          RB := [some (mkPlayer "r" "T2" Position.RB none)],
          WR := [some (mkPlayer "w" "T3" Position.WR none)],
          TE := [some (mkPlayer "t" "T4" Position.TE none)],
          FLEX := [some (mkPlayer "f" "T5" Position.WR none)],
          SUPERFLEX := [some (mkPlayer "s" "T6" Position.QB none)],
          DST := [some (mkPlayer "d" "T7" Position.DST none)],
          K := [some (mkPlayer "k" "T8" Position.K none)],
          BENCH := [] } Position.RB = true :=
  (valuedPositions_fallback.1 _ (by decide) (by decide) (by decide) (by decide) (by decide)
      (by decide) (by decide) (by decide) Position.RB).mpr (Or.inr (Or.inl rfl))

/-!
### Bye weeks of the rostered starters

Source:
```
const byeWeeks = [...QB, ...RB, ...WR, ...FLEX, ...SUPERFLEX]
  .map((p) => p && p.bye)
  .reduce((acc, bye) => (bye ? \x7b ...acc, [bye]: true \x7d : acc), \x7b\x7d);
```
so TE, K and DST starters are not consulted, and a bye of `0` is falsy and
never recorded.
-/

def starterByes (r : Roster) : List (Option ℕ) :=
  (r.QB ++ r.RB ++ r.WR ++ r.FLEX ++ r.SUPERFLEX).map (fun o => o.bind (fun q => q.bye))

/-- Whether the `byeWeeks` object maps week `w` to `true`; the fold carries
the value the object's key `w` has so far. -/
def byeWeeks (r : Roster) (w : ℕ) : Bool :=
  (starterByes r).foldl
    (fun acc bye =>
      match bye with
      | some b => if b ≠ 0 then (if b = w then true else acc) else acc
      | none => acc)
    false

/-- Modelled from the spec: the per-player `byeWeekConflict` flag consumed by
the table row ("true if the player's bye week matches a bye week already
occupied by a starter already on the tracked roster"); the row component that
performs this lookup on the `byeWeeks` map is not among the sources, while
the `byeWeeks` map itself (above) is translated from `mapStateToProps`. -/
def byeWeekConflict (r : Roster) (p : Player) : Bool :=
  match p.bye with
  | some b => byeWeeks r b
  | none => false

theorem byeFold_or (w : ℕ) :
    ∀ (l : List (Option ℕ)) (acc : Bool),
      l.foldl
          (fun acc bye =>
            match bye with
            | some b => if b ≠ 0 then (if b = w then true else acc) else acc
            | none => acc)
          acc
        = (acc ||
            l.any (fun o => match o with
              | some b => decide (b ≠ 0) && decide (b = w)
              | none => false)) := by
  intro l
  induction l with
  | nil => intro acc; simp
  | cons o t ih =>
    intro acc
    rw [List.foldl_cons, ih, List.any_cons]
    rcases o with _ | b
    · simp
    · by_cases hb : b = 0
      · subst hb; simp
      · by_cases hw : b = w
        · subst hw; simp [hb]
        · simp [hb, hw]

/-- C6 amended: the bye-week-conflict flag is true exactly when the player
has a nonzero bye week equal to the bye week of some starter in the QB, RB,
WR, FLEX or SUPERFLEX slots — TE, K and DST starters are not consulted. -/
theorem byeWeekConflict_iff (r : Roster) (p : Player) :
    byeWeekConflict r p = true ↔
      ∃ b : ℕ, p.bye = some b ∧ b ≠ 0 ∧ some b ∈ starterByes r := by
  rcases hb : p.bye with _ | b
  · simp [byeWeekConflict, hb]
  · have hc : byeWeekConflict r p = byeWeeks r b := by
      unfold byeWeekConflict
      rw [hb]
    rw [hc]
    unfold byeWeeks
    rw [byeFold_or]
    simp only [Bool.false_or, List.any_eq_true]
    constructor
    · rintro ⟨o, ho, hpred⟩
      rcases o with _ | b'
      · simp at hpred
      · simp only [Bool.and_eq_true, decide_eq_true_eq] at hpred
        exact ⟨b, rfl, hpred.2 ▸ hpred.1, hpred.2 ▸ ho⟩
    · rintro ⟨b', hb', hb0, hmem⟩
      have hbb : b = b' := Option.some.inj hb'
      subst hbb
      exact ⟨some b, hmem, by simp [hb0]⟩

/-- A roster whose only starter anywhere is a TE with bye week 5. -/
def teOnlyByeRoster : Roster :=
  { QB := [none], RB := [none], WR := [none],
    TE := [some (mkPlayerBye "T5" "TEN" Position.TE 5)],
    FLEX := [none], SUPERFLEX := [none], DST := [none], K := [none], BENCH := [] }

/-- C6 counterexample: a roster whose only starter with a bye is the TE
(bye week 5) and a player whose bye week is also 5 — the claim calls that a
conflict ("any starting slot"), but the computed flag is false because the
`byeWeeks` map only consults QB, RB, WR, FLEX and SUPERFLEX. -/
theorem byeWeekConflict_te_counterexample :
    teOnlyByeRoster.TE = [some (mkPlayerBye "T5" "TEN" Position.TE 5)] ∧
      byeWeekConflict teOnlyByeRoster (mkPlayerBye "X" "DAL" Position.WR 5) = false := by
  decide

/-!
### The scoring editor

Source: `ScoringModal`.  Its `multiple` table lists the categories reported
per-N-units (`passYds: 25, receptionYds: 10, rushYds: 10`); the input fields
display `multiple[k] ? scoring[k] * multiple[k] : scoring[k]` and
`changeScoring` stores `parseFloat(value) / multiple[id]` (or plain
`parseFloat(value)`).  `parseFloat` of a non-numeric string is `NaN`,
modelled as `none`; dividing `NaN` keeps `NaN`.
-/

inductive ScoringCat where
  | passYds | passTds | passInts | receptions | receptionYds | receptionTds
  | rushYds | rushTds | fumbles | twoPts
  | kickExtraPoints | kick019 | kick2029 | kick3039 | kick4049 | kick50
  | dfInts | dfTds | dfSacks | dfFumbles | dfSafeties
deriving DecidableEq, Repr

/-- Source: the `multiple` table, "Some stats are reported as multiples, but
should be 1:1 during forecasting"; a category without an entry reads back
`undefined` (falsy). -/
def multiple : ScoringCat → Option ℚ
  | .passYds => some 25
  | .receptionYds => some 10
  | .rushYds => some 10
  | _ => none

/-- The scoring profile: a per-category stored weight; `none` models a `NaN`
that a non-numeric edit can have written. -/
def Scoring := ScoringCat → Option ℚ

/-- The value an input field shows for category `k`:
`multiple[k] ? scoring[k] * multiple[k] : scoring[k]`. -/
def displayedValue (scoring : Scoring) (k : ScoringCat) : Option ℚ :=
  match multiple k with
  | some m => (scoring k).map (· * m)
  | none => scoring k

/-- The `changeScoring` handler: `value` is the `parseFloat` of the field's
text (`none` for a non-numeric parse, i.e. `NaN`); the updated profile stores
`value / multiple[id]` for per-N-units categories and `value` otherwise. -/
def changeScoring (scoring : Scoring) (id : ScoringCat) (value : Option ℚ) : Scoring :=
  let numValue : Option ℚ :=
    match multiple id with
    | some m => value.map (· / m)
    | none => value
  fun k => if k = id then numValue else scoring k

theorem multiple_ne_zero (id : ScoringCat) (m : ℚ) (hm : multiple id = some m) : m ≠ 0 := by
  cases id <;> simp [multiple] at hm <;> subst hm <;> norm_num

/-- C8: storing a numeric entered value `v` for a per-N-units category keeps
`v / N` internally and displays it back as `(v / N) × N = v` (round trip);
a category with no multiplier (counting stats) is stored and displayed
unchanged; and the multipliers are 25 for passing yards and 10 for receiving
and rushing yards. -/
theorem scoring_round_trip :
    (∀ (scoring : Scoring) (id : ScoringCat) (v : ℚ),
        displayedValue (changeScoring scoring id (some v)) id = some v) ∧
      (∀ (scoring : Scoring) (id : ScoringCat) (v : ℚ), multiple id = none →
        changeScoring scoring id (some v) id = some v) ∧
      multiple ScoringCat.passYds = some 25 ∧ multiple ScoringCat.receptionYds = some 10 ∧
        multiple ScoringCat.rushYds = some 10 := by
  refine ⟨?_, ?_, rfl, rfl, rfl⟩
  · intro scoring id v
    unfold displayedValue changeScoring
    rcases hm : multiple id with _ | m
    · simp [hm]
    · have hm0 := multiple_ne_zero id m hm
      simp [hm, div_mul_cancel₀ v hm0]
  · intro scoring id v h
    simp [changeScoring, h]

/-- Closed witness for `scoring_round_trip`: editing "25 passing yds" to 6
stores 6/25 = 0.24 and displays 6 again; receptions (multiplier-free) store
the entered 7 unchanged. -/
theorem scoring_round_trip_witness :
    displayedValue (changeScoring (fun _ => some 0) ScoringCat.passYds (some 6))
        ScoringCat.passYds = some 6 ∧
      changeScoring (fun _ => some 0) ScoringCat.receptions (some 7) ScoringCat.receptions
        = some 7 :=
  ⟨scoring_round_trip.1 (fun _ => some 0) ScoringCat.passYds 6,
    scoring_round_trip.2.1 (fun _ => some 0) ScoringCat.receptions 7 rfl⟩

/-- C9 counterexample: a non-numeric entry (whose `parseFloat` is `NaN`,
modelled `none`) for the thrown-TD category is stored as `NaN`, not as the
zero weight the claim asserts. -/
theorem changeScoring_nan_counterexample :
    changeScoring (fun _ => some 1) ScoringCat.passTds none ScoringCat.passTds = none ∧
      (none : Option ℚ) ≠ some 0 := by
  constructor
  · rfl
  · simp

/-- C9 amended: for every non-numeric input (a `NaN` parse) the handler
stores `NaN` for that category — it never raises (the handler is a total
function), but the stored weight is `NaN` rather than zero. -/
theorem changeScoring_nan (scoring : Scoring) (id : ScoringCat) :
    changeScoring scoring id none id = none := by
  unfold changeScoring
  rcases hm : multiple id with _ | m <;> simp [hm]

/-!
### Startup catalog sync

Source: the `window.onload` handler of the application bootstrap:
```
const \x7b lastSync, lastSyncPlayers, players \x7d = store.getState();
const twelveHours = 1000 * 60 * 60 * 12;
if (players.length && lastSyncPlayers.length && lastSync > 0
    && Date.now() - lastSync < twelveHours) \x7b return; \x7d
fetch('/projections.json') …
```
The fetch is issued exactly once when the guard does not return early; there
is no retry.
-/

def twelveHours : ℤ := 1000 * 60 * 60 * 12

/-- Whether the early `return` is taken (the fetch skipped): all four guard
conjuncts are truthy. -/
def skipSync (players lastSyncPlayers : List Player) (lastSync now : ℤ) : Bool :=
  decide (players.length ≠ 0) && decide (lastSyncPlayers.length ≠ 0) &&
    decide (0 < lastSync) && decide (now - lastSync < twelveHours)

/-- How many fetches the handler issues: one, unless the guard returns
early. -/
def fetchAttempts (players lastSyncPlayers : List Player) (lastSync now : ℤ) : ℕ :=
  if skipSync players lastSyncPlayers lastSync now then 0 else 1

/-- C10 counterexample: with an empty cached player list but a last
successful sync 1 ms ago (lastSync = 5, now = 6), the claim says the fetch
is skipped (the sync is far newer than 12 hours), yet the guard fails on
`players.length` and the fetch is attempted. -/
theorem skipSync_counterexample :
    skipSync [] [] 5 6 = false ∧ (0 : ℤ) < 5 ∧ (6 : ℤ) - 5 < twelveHours ∧
      fetchAttempts [] [] 5 6 = 1 := by
  decide

/-- C10 amended: the startup fetch is skipped exactly when the cached player
list and the last-sync snapshot are both non-empty, a last sync is recorded
(`lastSync > 0`), and it happened less than 12 hours before now; whenever it
is not skipped, exactly one fetch is attempted (no retry). -/
theorem skipSync_iff (players lastSyncPlayers : List Player) (lastSync now : ℤ) :
    (skipSync players lastSyncPlayers lastSync now = true ↔
        (players ≠ [] ∧ lastSyncPlayers ≠ [] ∧ 0 < lastSync ∧
          now - lastSync < twelveHours)) ∧
      (skipSync players lastSyncPlayers lastSync now = false →
        fetchAttempts players lastSyncPlayers lastSync now = 1) := by
  constructor
  · simp [skipSync, List.length_eq_zero, and_assoc]
  · intro h
    simp [fetchAttempts, h]

/-- Closed witness for `skipSync_iff`: with no recorded sync the fetch is
attempted exactly once. -/
theorem skipSync_iff_witness : fetchAttempts [] [] 0 0 = 1 :=
  (skipSync_iff [] [] 0 0).2 (by decide)

end FF
